import Mathlib

/-!
Shallow embedding of `hw/pci-host/pnv_phb4_pec.c` (QEMU PowerNV POWER9
PHB4 PEC model): the two XSCOM register banks with their write
whitelists, the PEC realize path, the stack units with their default
PHB children, and the device-tree (topology) export.

Machine integers are modelled as `Nat` with explicit `% 2^w` where the
C code truncates.  Constants that live in headers not present under
`src/` (`pnv_phb4_regs.h`, `pnv_phb4.h`, `pnv_xscom.h`, the chip's
`num_pecs`) are modelled from the spec and marked as such in their doc
comments.
-/

namespace PnvPhb4Pec

/-- Modelled from the spec: register index constants from
`hw/pci-host/pnv_phb4_regs.h` (not under `src/`); the nest bank's
whitelisted registers named in the spec as hardware-config,
drop-priority-control, error-injection, clock-trace-control,
performance-monitor-control, address-extension, prediction-timeout,
capp-control, read/write/store-stack-override, retry-backoff-control. -/
def PEC_NEST_PBCQ_HW_CONFIG : Nat := 0x00

def PEC_NEST_DROP_PRIO_CTRL : Nat := 0x01

def PEC_NEST_PBCQ_ERR_INJECT : Nat := 0x02

def PEC_NEST_PCI_NEST_CLK_TRACE_CTL : Nat := 0x03

def PEC_NEST_PBCQ_PMON_CTRL : Nat := 0x04

def PEC_NEST_PBCQ_PBUS_ADDR_EXT : Nat := 0x05

def PEC_NEST_PBCQ_PRED_VEC_TIMEOUT : Nat := 0x06

def PEC_NEST_CAPP_CTRL : Nat := 0x07

def PEC_NEST_PBCQ_READ_STK_OVR : Nat := 0x08

def PEC_NEST_PBCQ_WRITE_STK_OVR : Nat := 0x09

def PEC_NEST_PBCQ_STORE_STK_OVR : Nat := 0x0a

def PEC_NEST_PBCQ_RETRY_BKOFF_CTRL : Nat := 0x0b

/-- Modelled from the spec: pci bank register indices from
`pnv_phb4_regs.h` (not under `src/`). -/
def PEC_PCI_PBAIB_HW_CONFIG : Nat := 0x00

def PEC_PCI_PBAIB_READ_STK_OVR : Nat := 0x01

/-- Modelled from the spec: `PHB4_PEC_NEST_REGS_COUNT` from
`hw/pci-host/pnv_phb4.h` (not under `src/`); the nest bank's fixed
register capacity. -/
def PHB4_PEC_NEST_REGS_COUNT : Nat := 0xf

/-- Modelled from the spec: `PHB4_PEC_PCI_REGS_COUNT` from
`hw/pci-host/pnv_phb4.h` (not under `src/`); the pci bank's fixed
register capacity. -/
def PHB4_PEC_PCI_REGS_COUNT : Nat := 0x2

/-- Modelled from the spec: `PHB4_PEC_MAX_STACKS` from
`hw/pci-host/pnv_phb4.h` (not under `src/`); the fixed maximum number
of pre-allocated stack slots. -/
def PHB4_PEC_MAX_STACKS : Nat := 3

/-- Modelled from the spec: `PNV9_XSCOM_PEC_NEST_BASE` from
`hw/ppc/pnv_xscom.h` (not under `src/`); the NEST_ORIGIN constant of
the hardware family. -/
def PNV9_XSCOM_PEC_NEST_BASE : Nat := 0x4010c00

/-- Modelled from the spec: `PNV9_XSCOM_PEC_NEST_SIZE` from
`hw/ppc/pnv_xscom.h` (not under `src/`); the nest bank window size. -/
def PNV9_XSCOM_PEC_NEST_SIZE : Nat := 0x100

/-- Modelled from the spec: `PNV9_XSCOM_PEC_PCI_BASE` from
`hw/ppc/pnv_xscom.h` (not under `src/`); the PCI_ORIGIN constant of
the hardware family. -/
def PNV9_XSCOM_PEC_PCI_BASE : Nat := 0xd010800

/-- Modelled from the spec: `PNV9_XSCOM_PEC_PCI_SIZE` from
`hw/ppc/pnv_xscom.h` (not under `src/`); the pci bank window size. -/
def PNV9_XSCOM_PEC_PCI_SIZE : Nat := 0x200

/-- Modelled from the spec: the chip's declared controller count
(`PNV_CHIP_GET_CLASS(pec->chip)->num_pecs`, not under `src/`); the
spec states the stack-count table length defines the valid controller
count for this chip family, so it is 3. -/
def chip_num_pecs : Nat := 3

/-- The table `static const uint32_t pnv_pec_num_stacks[]` with value `[1, 2, 3]`
(PEC0 has 1 stack, PEC1 has 2, PEC2 has 3). -/
def pnv_pec_num_stacks : List Nat := [1, 2, 3]

/-- The case labels of the `switch (reg)` in `pnv_pec_nest_xscom_write`
that fall through to the store, in source order. -/
def pnv_pec_nest_write_cases : List Nat :=
  [PEC_NEST_PBCQ_HW_CONFIG,
   PEC_NEST_DROP_PRIO_CTRL,
   PEC_NEST_PBCQ_ERR_INJECT,
   PEC_NEST_PCI_NEST_CLK_TRACE_CTL,
   PEC_NEST_PBCQ_PMON_CTRL,
   PEC_NEST_PBCQ_PBUS_ADDR_EXT,
   PEC_NEST_PBCQ_PRED_VEC_TIMEOUT,
   PEC_NEST_CAPP_CTRL,
   PEC_NEST_PBCQ_READ_STK_OVR,
   PEC_NEST_PBCQ_WRITE_STK_OVR,
   PEC_NEST_PBCQ_STORE_STK_OVR,
   PEC_NEST_PBCQ_RETRY_BKOFF_CTRL]

/-- The case labels of the `switch (reg)` in `pnv_pec_pci_xscom_write`
that fall through to the store, in source order. -/
def pnv_pec_pci_write_cases : List Nat :=
  [PEC_PCI_PBAIB_HW_CONFIG,
   PEC_PCI_PBAIB_READ_STK_OVR]

/-- A stack unit (`PnvPhb4PecStack`): its position, a flag for whether
the default PHB child was realized, and the three configuration values
set on that child by `pnv_pec_stk_default_phb_realize`. -/
structure Stack where
  stack_no : Nat
  phb_realized : Bool
  phb_chip_id : Nat
  phb_index : Nat
  phb_version : Nat
  deriving Repr, DecidableEq

/-- The controller state (`PnvPhb4PecState`): identity, the two
register banks as fixed-length lists of 64-bit words, the derived
stack count, the live stacks, and flags recording that the two XSCOM
regions were initialized. -/
structure PecState where
  chip_id : Nat
  index : Nat
  nest_regs : List Nat
  pci_regs : List Nat
  num_stacks : Nat
  stacks_ : List Stack
  nest_region_init : Bool
  pci_region_init : Bool
  deriving Repr, DecidableEq

/-- A guest-visible diagnostic emitted by `phb_pec_error`
(`qemu_log_mask(LOG_GUEST_ERROR, "phb4_pec[%d:%d]: ...")`): the
function name, the pec identity, and the offending address and
value. -/
structure Diag where
  func : String
  chip_id : Nat
  pec_index : Nat
  addr : Nat
  val : Nat
  deriving Repr, DecidableEq

/-- The address decoder `uint32_t reg = addr >> 3;`: byte offset
shifted right by 3, truncated to 32 bits by the `uint32_t` store. -/
def decode_reg (addr : Nat) : Nat :=
  (addr >>> 3) % 2 ^ 32

/-- Embeds `pnv_pec_nest_xscom_read`: decode the register index and return
the stored word; no state change.  Out-of-range indices (modelled from
the spec: read of an unmapped index returns the default-initialized
zero, never a crash) return 0 via `getD`. -/
def pnv_pec_nest_xscom_read (pec : PecState) (addr : Nat) :
    Nat × PecState :=
  (pec.nest_regs.getD (decode_reg addr) 0, pec)

/-- Embeds `pnv_pec_pci_xscom_read`: same contract on the pci bank. -/
def pnv_pec_pci_xscom_read (pec : PecState) (addr : Nat) :
    Nat × PecState :=
  (pec.pci_regs.getD (decode_reg addr) 0, pec)

/-- Embeds `pnv_pec_nest_xscom_write`: decode the register index; if it is
one of the whitelisted case labels store the value, otherwise leave
the bank untouched and emit one `phb_pec_error` diagnostic.  Returns
the new state and the diagnostics emitted by this call. -/
def pnv_pec_nest_xscom_write (pec : PecState) (addr val : Nat) :
    PecState × List Diag :=
  let reg := decode_reg addr
  if reg ∈ pnv_pec_nest_write_cases then
    ({ pec with nest_regs := pec.nest_regs.set reg val }, [])
  else
    (pec, [⟨"pnv_pec_nest_xscom_write", pec.chip_id, pec.index,
            addr, val⟩])

/-- Embeds `pnv_pec_pci_xscom_write`: same structure on the pci bank with its
two-element whitelist. -/
def pnv_pec_pci_xscom_write (pec : PecState) (addr val : Nat) :
    PecState × List Diag :=
  let reg := decode_reg addr
  if reg ∈ pnv_pec_pci_write_cases then
    ({ pec with pci_regs := pec.pci_regs.set reg val }, [])
  else
    (pec, [⟨"pnv_pec_pci_xscom_write", pec.chip_id, pec.index,
            addr, val⟩])

/-- Embeds `pnv_pec_instance_init` together with QOM zero-initialized
allocation: a fresh controller with both banks zero-filled and the
`PHB4_PEC_MAX_STACKS` stack slots pre-allocated (zeroed). -/
def pnv_pec_instance_init (chip_id index : Nat) : PecState :=
  { chip_id := chip_id
    index := index
    nest_regs := List.replicate PHB4_PEC_NEST_REGS_COUNT 0
    pci_regs := List.replicate PHB4_PEC_PCI_REGS_COUNT 0
    num_stacks := 0
    stacks_ := (List.range PHB4_PEC_MAX_STACKS).map
      (fun i => ⟨i, false, 0, 0, 0⟩)
    nest_region_init := false
    pci_region_init := false }

/-- Well-formedness: the two banks have their fixed capacities (as
established by allocation and preserved by every operation). -/
def PecState.wf (pec : PecState) : Prop :=
  pec.nest_regs.length = PHB4_PEC_NEST_REGS_COUNT ∧
  pec.pci_regs.length = PHB4_PEC_PCI_REGS_COUNT

instance (pec : PecState) : Decidable pec.wf := by
  unfold PecState.wf; infer_instance

/-- Modelled from the spec: `PNV_PHB4_VERSION` from
`pnv_phb4_regs.h` (not under `src/`); the chip-family version constant
passed to the default PHB child.  Its concrete value is immaterial to
every property proved here. -/
def PNV_PHB4_VERSION : Nat := 0x000000a400000002

/-- Modelled from the spec: `pnv_phb4_pec_get_phb_id` is declared in
`hw/pci-host/pnv_phb4.h`, not under `src/`.  The spec requires a pure
function of the controller's position and the stack's position that
yields a chip-global PHB identifier; modelled as the number of PHBs
owned by lower-index controllers (per the fixed stack-count table)
plus the stack's own position. -/
def pnv_phb4_pec_get_phb_id (pec_index stack_index : Nat) : Nat :=
  ((List.range pec_index).map
    (fun k => pnv_pec_num_stacks.getD k 0)).sum + stack_index

/-- Embeds `pnv_pec_xscom_nest_base` (a `uint32_t` function):
`PNV9_XSCOM_PEC_NEST_BASE + 0x400 * pec->index`, truncated to 32
bits. -/
def pnv_pec_xscom_nest_base (index : Nat) : Nat :=
  (PNV9_XSCOM_PEC_NEST_BASE + 0x400 * index) % 2 ^ 32

/-- Embeds `pnv_pec_xscom_pci_base` (a `uint32_t` function):
`PNV9_XSCOM_PEC_PCI_BASE + 0x1000000 * pec->index`, truncated to 32
bits. -/
def pnv_pec_xscom_pci_base (index : Nat) : Nat :=
  (PNV9_XSCOM_PEC_PCI_BASE + 0x1000000 * index) % 2 ^ 32

/-- Embeds `pnv_pec_stk_default_phb_realize`: create the default PHB
child configured with the owner's `chip_id`, the derived PHB index
from `pnv_phb4_pec_get_phb_id(pec, stack->stack_no)`, and the family
version. -/
def pnv_pec_stk_default_phb_realize (pec : PecState) (stack : Stack) :
    Stack :=
  { stack with
    phb_realized := true
    phb_chip_id := pec.chip_id
    phb_index := pnv_phb4_pec_get_phb_id pec.index stack.stack_no
    phb_version := PNV_PHB4_VERSION }

/-- Embeds `pnv_pec_stk_realize`: realize the default PHB child only
when the global defaults policy (`defaults_enabled()`) is on. -/
def pnv_pec_stk_realize (defaults_on : Bool) (pec : PecState)
    (stack : Stack) : Stack :=
  if defaults_on then pnv_pec_stk_default_phb_realize pec stack
  else stack

/-- Embeds `pnv_pec_realize`: reject an index at or above the chip's
declared controller count with `error_setg(errp, "invalid PEC index: %d",
pec->index)` and return with the state untouched; otherwise derive
`num_stacks` from the fixed table, set `stack-no := i` on each of the
first `num_stacks` pre-allocated slots and realize them, unparent the
remaining slots, and initialize the two XSCOM regions.  Returns the
error (if any) and the resulting state. -/
def pnv_pec_realize (defaults_on : Bool) (pec : PecState) :
    Option String × PecState :=
  if pec.index ≥ chip_num_pecs then
    (some ("invalid PEC index: " ++ toString pec.index), pec)
  else
    let ns := pnv_pec_num_stacks.getD pec.index 0
    let pec1 := { pec with num_stacks := ns }
    let live := (List.range ns).map (fun i =>
      let slot := pec1.stacks_.getD i ⟨i, false, 0, 0, 0⟩
      pnv_pec_stk_realize defaults_on pec1 { slot with stack_no := i })
    (none,
     { pec1 with
       stacks_ := live
       nest_region_init := true
       pci_region_init := true })

/-- A device-tree property value: raw bytes (`fdt_setprop` with a
binary buffer) or a NUL-terminated string (`fdt_setprop` with a C
string and its `sizeof`). -/
inductive FdtPropVal where
  | bytes : List Nat → FdtPropVal
  | strz : String → FdtPropVal
  deriving Repr, DecidableEq

/-- A device-tree node produced by the topology export: name,
properties in the order they are set, and subnodes in the order they
are added. -/
structure FdtNode where
  name : String
  props : List (String × FdtPropVal)
  children : List FdtNode

/-- Big-endian serialization of one 32-bit word (`cpu_to_be32`
followed by the byte-level copy `fdt_setprop` performs). -/
def cpu_to_be32 (x : Nat) : List Nat :=
  [x % 2 ^ 32 >>> 24, x % 2 ^ 32 >>> 16 % 256,
   x % 2 ^ 32 >>> 8 % 256, x % 256]

/-- Lowercase hexadecimal rendering of a number, as `printf` `%x`
produces for the node names. -/
def hexStr (n : Nat) : String :=
  String.mk (Nat.toDigits 16 n)

/-- Embeds `pnv_pec_dt_xscom`: emit one `pbcq@<nest_base_hex>` node
whose `reg` holds the four big-endian words nest base, nest size, pci
base, pci size, plus the pec index, cell counts and the family
compatible string, and one `stack@<i_hex>` child per live stack, in
ascending order, each carrying the stack compatible string, its index
as `reg`, and its derived PHB index. -/
def pnv_pec_dt_xscom (pec : PecState) : FdtNode :=
  let nbase := pnv_pec_xscom_nest_base pec.index
  let pbase := pnv_pec_xscom_pci_base pec.index
  let reg := cpu_to_be32 nbase ++ cpu_to_be32 PNV9_XSCOM_PEC_NEST_SIZE
      ++ cpu_to_be32 pbase ++ cpu_to_be32 PNV9_XSCOM_PEC_PCI_SIZE
  { name := "pbcq@" ++ hexStr nbase
    props :=
      [("reg", FdtPropVal.bytes reg),
       ("ibm,pec-index", FdtPropVal.bytes (cpu_to_be32 pec.index)),
       ("#address-cells", FdtPropVal.bytes (cpu_to_be32 1)),
       ("#size-cells", FdtPropVal.bytes (cpu_to_be32 0)),
       ("compatible", FdtPropVal.strz ("ibm,power9-pbcq"))]
    children := (List.range pec.num_stacks).map (fun i =>
      { name := "stack@" ++ hexStr i
        props :=
          [("compatible", FdtPropVal.strz ("ibm,power9-phb-stack")),
           ("reg", FdtPropVal.bytes (cpu_to_be32 i)),
           ("ibm,phb-index",
            FdtPropVal.bytes
              (cpu_to_be32 (pnv_phb4_pec_get_phb_id pec.index i)))]
        children := [] }) }

/-- Rendering of the spec's enumerated nest-bank whitelist (spec
section 6): hardware-config, error-injection, clock-trace-control,
performance-monitor-control, address-extension, prediction-timeout,
capp-control, read/write/store-stack-override, retry-backoff-control.
This follows the spec's words, for comparison with the source's
case-label set. -/
def spec_nest_whitelist : List Nat :=
  [PEC_NEST_PBCQ_HW_CONFIG,
   PEC_NEST_PBCQ_ERR_INJECT,
   PEC_NEST_PCI_NEST_CLK_TRACE_CTL,
   PEC_NEST_PBCQ_PMON_CTRL,
   PEC_NEST_PBCQ_PBUS_ADDR_EXT,
   PEC_NEST_PBCQ_PRED_VEC_TIMEOUT,
   PEC_NEST_CAPP_CTRL,
   PEC_NEST_PBCQ_READ_STK_OVR,
   PEC_NEST_PBCQ_WRITE_STK_OVR,
   PEC_NEST_PBCQ_STORE_STK_OVR,
   PEC_NEST_PBCQ_RETRY_BKOFF_CTRL]

/-- Rendering of the spec's pci-bank whitelist: hardware-config and
read-stack-override. -/
def spec_pci_whitelist : List Nat :=
  [PEC_PCI_PBAIB_HW_CONFIG,
   PEC_PCI_PBAIB_READ_STK_OVR]

/-! Helper lemmas shared by the claim theorems. -/

theorem getD_set_self (l : List Nat) (n v : Nat) (h : n < l.length) :
    (l.set n v).getD n 0 = v := by
  simp [List.getD_eq_getElem?_getD, List.getElem?_set_self',
        List.getElem?_eq_getElem h]

theorem getD_set_ne (l : List Nat) (n m v : Nat) (h : n ≠ m) :
    (l.set n v).getD m 0 = l.getD m 0 := by
  simp [List.getD_eq_getElem?_getD, List.getElem?_set_ne h]

theorem getD_ge (l : List Nat) (n : Nat) (h : l.length ≤ n) :
    l.getD n 0 = 0 := by
  simp [List.getD_eq_getElem?_getD, List.getElem?_eq_none h]

theorem getD_replicate_zero (n i : Nat) :
    (List.replicate n (0 : Nat)).getD i 0 = 0 := by
  rcases Nat.lt_or_ge i n with h | h
  · simp [List.getD_eq_getElem?_getD, List.getElem?_replicate, h]
  · exact getD_ge _ _ (by simpa using h)

theorem decode_reg_8 (r : Nat) (h : r < 2 ^ 32) :
    decode_reg (8 * r) = r := by
  unfold decode_reg
  have h8 : (8 * r) >>> 3 = r := by
    rw [Nat.shiftRight_eq_div_pow]
    omega
  rw [h8, Nat.mod_eq_of_lt h]

theorem mem_nest_cases_lt (r : Nat)
    (h : r ∈ pnv_pec_nest_write_cases) :
    r < PHB4_PEC_NEST_REGS_COUNT := by
  fin_cases h <;> decide

theorem mem_pci_cases_lt (r : Nat)
    (h : r ∈ pnv_pec_pci_write_cases) :
    r < PHB4_PEC_PCI_REGS_COUNT := by
  fin_cases h <;> decide

theorem nest_write_of_mem (pec : PecState) (addr v : Nat)
    (h : decode_reg addr ∈ pnv_pec_nest_write_cases) :
    pnv_pec_nest_xscom_write pec addr v =
      ({ pec with nest_regs := pec.nest_regs.set (decode_reg addr) v },
       []) := by
  simp [pnv_pec_nest_xscom_write, h]

theorem nest_write_of_not_mem (pec : PecState) (addr v : Nat)
    (h : decode_reg addr ∉ pnv_pec_nest_write_cases) :
    pnv_pec_nest_xscom_write pec addr v =
      (pec, [⟨"pnv_pec_nest_xscom_write", pec.chip_id, pec.index,
              addr, v⟩]) := by
  simp [pnv_pec_nest_xscom_write, h]

theorem pci_write_of_mem (pec : PecState) (addr v : Nat)
    (h : decode_reg addr ∈ pnv_pec_pci_write_cases) :
    pnv_pec_pci_xscom_write pec addr v =
      ({ pec with pci_regs := pec.pci_regs.set (decode_reg addr) v },
       []) := by
  simp [pnv_pec_pci_xscom_write, h]

theorem pci_write_of_not_mem (pec : PecState) (addr v : Nat)
    (h : decode_reg addr ∉ pnv_pec_pci_write_cases) :
    pnv_pec_pci_xscom_write pec addr v =
      (pec, [⟨"pnv_pec_pci_xscom_write", pec.chip_id, pec.index,
              addr, v⟩]) := by
  simp [pnv_pec_pci_xscom_write, h]

theorem getD_map_range {A : Type} (n k : Nat) (f : Nat → A) (d : A)
    (h : k < n) :
    ((List.range n).map f).getD k d = f k := by
  simp [List.getD_eq_getElem?_getD, List.getElem?_map,
        List.getElem?_range h]

theorem realize_ok (pec : PecState) (d : Bool)
    (h : pec.index < chip_num_pecs) :
    pnv_pec_realize d pec =
      (none,
       { pec with
         num_stacks := pnv_pec_num_stacks.getD pec.index 0
         stacks_ := (List.range (pnv_pec_num_stacks.getD pec.index 0)).map
           (fun i => pnv_pec_stk_realize d
             { pec with num_stacks := pnv_pec_num_stacks.getD pec.index 0 }
             { pec.stacks_.getD i ⟨i, false, 0, 0, 0⟩ with stack_no := i })
         nest_region_init := true
         pci_region_init := true }) := by
  unfold pnv_pec_realize
  rw [if_neg (Nat.not_le.mpr h)]

/-- C1: for each bank, a write to a whitelisted register index `r` of a
64-bit value `v` followed by a read of the same register returns `v`. -/
theorem c1_whitelisted_write_read_roundtrip (pec : PecState) (r v : Nat)
    (hwf : pec.wf) (hv : v < 2 ^ 64) :
    (r ∈ pnv_pec_nest_write_cases →
      (pnv_pec_nest_xscom_read
        ((pnv_pec_nest_xscom_write pec (8 * r) v).1) (8 * r)).1 = v) ∧
    (r ∈ pnv_pec_pci_write_cases →
      (pnv_pec_pci_xscom_read
        ((pnv_pec_pci_xscom_write pec (8 * r) v).1) (8 * r)).1 = v) := by
  constructor
  · intro hmem
    have hlt : r < PHB4_PEC_NEST_REGS_COUNT := mem_nest_cases_lt r hmem
    have hr32 : r < 2 ^ 32 := by
      unfold PHB4_PEC_NEST_REGS_COUNT at hlt; omega
    have hd : decode_reg (8 * r) = r := decode_reg_8 r hr32
    rw [nest_write_of_mem pec _ v (by rw [hd]; exact hmem)]
    simp only [pnv_pec_nest_xscom_read, hd]
    exact getD_set_self _ _ _ (by rw [hwf.1]; exact hlt)
  · intro hmem
    have hlt : r < PHB4_PEC_PCI_REGS_COUNT := mem_pci_cases_lt r hmem
    have hr32 : r < 2 ^ 32 := by
      unfold PHB4_PEC_PCI_REGS_COUNT at hlt; omega
    have hd : decode_reg (8 * r) = r := decode_reg_8 r hr32
    rw [pci_write_of_mem pec _ v (by rw [hd]; exact hmem)]
    simp only [pnv_pec_pci_xscom_read, hd]
    exact getD_set_self _ _ _ (by rw [hwf.2]; exact hlt)

/-- C1 witness: round-trip at bank nest and pci, register 0, value
`0x1234`, on a freshly initialized controller. -/
theorem c1_roundtrip_witness :
    (0 ∈ pnv_pec_nest_write_cases →
      (pnv_pec_nest_xscom_read
        ((pnv_pec_nest_xscom_write (pnv_pec_instance_init 0 0) (8 * 0)
          0x1234).1) (8 * 0)).1 = 0x1234) ∧
    (0 ∈ pnv_pec_pci_write_cases →
      (pnv_pec_pci_xscom_read
        ((pnv_pec_pci_xscom_write (pnv_pec_instance_init 0 0) (8 * 0)
          0x1234).1) (8 * 0)).1 = 0x1234) :=
  c1_whitelisted_write_read_roundtrip (pnv_pec_instance_init 0 0) 0 0x1234
    (by decide) (by norm_num)

/-- C2: for each bank, a write whose decoded register index is not in
that bank's whitelist returns with the state unchanged, emits exactly
one diagnostic carrying the offending address and value, and (being a
total function) does not fail from the caller's point of view; the
subsequent read returns the prior value. -/
theorem c2_non_whitelisted_write_rejected (pec : PecState)
    (addr v : Nat) :
    (decode_reg addr ∉ pnv_pec_nest_write_cases →
      pnv_pec_nest_xscom_write pec addr v =
        (pec, [⟨"pnv_pec_nest_xscom_write", pec.chip_id, pec.index,
                addr, v⟩]) ∧
      (pnv_pec_nest_xscom_read
        ((pnv_pec_nest_xscom_write pec addr v).1) addr).1 =
        (pnv_pec_nest_xscom_read pec addr).1 ∧
      (pnv_pec_nest_xscom_write pec addr v).2.length = 1) ∧
    (decode_reg addr ∉ pnv_pec_pci_write_cases →
      pnv_pec_pci_xscom_write pec addr v =
        (pec, [⟨"pnv_pec_pci_xscom_write", pec.chip_id, pec.index,
                addr, v⟩]) ∧
      (pnv_pec_pci_xscom_read
        ((pnv_pec_pci_xscom_write pec addr v).1) addr).1 =
        (pnv_pec_pci_xscom_read pec addr).1 ∧
      (pnv_pec_pci_xscom_write pec addr v).2.length = 1) := by
  constructor
  · intro hmem
    rw [nest_write_of_not_mem pec addr v hmem]
    exact ⟨rfl, rfl, rfl⟩
  · intro hmem
    rw [pci_write_of_not_mem pec addr v hmem]
    exact ⟨rfl, rfl, rfl⟩

/-- C2 witness: register index 12 is outside both whitelists; the
write at byte offset 96 is dropped with one diagnostic on each
bank. -/
theorem c2_rejected_witness :
    (decode_reg (8 * 12) ∉ pnv_pec_nest_write_cases →
      pnv_pec_nest_xscom_write (pnv_pec_instance_init 3 1) (8 * 12) 7 =
        (pnv_pec_instance_init 3 1,
         [⟨"pnv_pec_nest_xscom_write", 3, 1, 8 * 12, 7⟩]) ∧
      (pnv_pec_nest_xscom_read
        ((pnv_pec_nest_xscom_write (pnv_pec_instance_init 3 1) (8 * 12)
          7).1) (8 * 12)).1 =
        (pnv_pec_nest_xscom_read (pnv_pec_instance_init 3 1) (8 * 12)).1 ∧
      (pnv_pec_nest_xscom_write (pnv_pec_instance_init 3 1) (8 * 12)
        7).2.length = 1) ∧
    (decode_reg (8 * 12) ∉ pnv_pec_pci_write_cases →
      pnv_pec_pci_xscom_write (pnv_pec_instance_init 3 1) (8 * 12) 7 =
        (pnv_pec_instance_init 3 1,
         [⟨"pnv_pec_pci_xscom_write", 3, 1, 8 * 12, 7⟩]) ∧
      (pnv_pec_pci_xscom_read
        ((pnv_pec_pci_xscom_write (pnv_pec_instance_init 3 1) (8 * 12)
          7).1) (8 * 12)).1 =
        (pnv_pec_pci_xscom_read (pnv_pec_instance_init 3 1) (8 * 12)).1 ∧
      (pnv_pec_pci_xscom_write (pnv_pec_instance_init 3 1) (8 * 12)
        7).2.length = 1) :=
  c2_non_whitelisted_write_rejected (pnv_pec_instance_init 3 1) (8 * 12) 7

/-- C5: realizing a controller whose index is at or above the chip's
declared controller count fails with the descriptive error and leaves
the state exactly as it was: no register-bank regions initialized, no
stack units realized. -/
theorem c5_invalid_index_realize_fails (pec : PecState) (d : Bool)
    (h : chip_num_pecs ≤ pec.index) :
    pnv_pec_realize d pec =
      (some ("invalid PEC index: " ++ toString pec.index), pec) := by
  unfold pnv_pec_realize
  rw [if_pos h]

/-- C5 witness: index 3 on a chip declaring 3 controllers fails and
leaves the fresh state untouched (regions uninitialized, stacks
unrealized). -/
theorem c5_invalid_index_witness :
    pnv_pec_realize true (pnv_pec_instance_init 0 3) =
      (some ("invalid PEC index: " ++ toString 3),
       pnv_pec_instance_init 0 3) ∧
    (pnv_pec_realize true (pnv_pec_instance_init 0 3)).2.nest_region_init
      = false ∧
    (pnv_pec_realize true (pnv_pec_instance_init 0 3)).2.pci_region_init
      = false := by
  have h := c5_invalid_index_realize_fails (pnv_pec_instance_init 0 3)
    true (by decide)
  rw [h]
  exact ⟨rfl, rfl, rfl⟩

/-- C6: reads decode the register index as the byte offset shifted
right by 3 (truncated to 32 bits by the `uint32_t` store), always
succeed, and return the bank's default-initialized zero both for
indices beyond the bank's capacity and for any register of a freshly
initialized controller; a read never changes the state. -/
theorem c6_read_total_default_zero (pec : PecState) (addr c i : Nat)
    (hwf : pec.wf) :
    ((pnv_pec_nest_xscom_read pec addr).1 =
      pec.nest_regs.getD ((addr >>> 3) % 2 ^ 32) 0) ∧
    ((pnv_pec_pci_xscom_read pec addr).1 =
      pec.pci_regs.getD ((addr >>> 3) % 2 ^ 32) 0) ∧
    (PHB4_PEC_NEST_REGS_COUNT ≤ decode_reg addr →
      (pnv_pec_nest_xscom_read pec addr).1 = 0) ∧
    (PHB4_PEC_PCI_REGS_COUNT ≤ decode_reg addr →
      (pnv_pec_pci_xscom_read pec addr).1 = 0) ∧
    ((pnv_pec_nest_xscom_read (pnv_pec_instance_init c i) addr).1 = 0) ∧
    ((pnv_pec_pci_xscom_read (pnv_pec_instance_init c i) addr).1 = 0) ∧
    ((pnv_pec_nest_xscom_read pec addr).2 = pec) ∧
    ((pnv_pec_pci_xscom_read pec addr).2 = pec) := by
  refine ⟨rfl, rfl, ?_, ?_, ?_, ?_, rfl, rfl⟩
  · intro hge
    exact getD_ge _ _ (by rw [hwf.1]; exact hge)
  · intro hge
    exact getD_ge _ _ (by rw [hwf.2]; exact hge)
  · exact getD_replicate_zero _ _
  · exact getD_replicate_zero _ _

/-- C6 witness: at byte offset `0x78` (register 15, beyond the nest
bank's capacity) and on a fresh controller, both banks read zero. -/
theorem c6_read_witness :
    ((pnv_pec_nest_xscom_read (pnv_pec_instance_init 2 1) 0x78).1 =
      (pnv_pec_instance_init 2 1).nest_regs.getD
        ((0x78 >>> 3) % 2 ^ 32) 0) ∧
    ((pnv_pec_pci_xscom_read (pnv_pec_instance_init 2 1) 0x78).1 =
      (pnv_pec_instance_init 2 1).pci_regs.getD
        ((0x78 >>> 3) % 2 ^ 32) 0) ∧
    (PHB4_PEC_NEST_REGS_COUNT ≤ decode_reg 0x78 →
      (pnv_pec_nest_xscom_read (pnv_pec_instance_init 2 1) 0x78).1 = 0) ∧
    (PHB4_PEC_PCI_REGS_COUNT ≤ decode_reg 0x78 →
      (pnv_pec_pci_xscom_read (pnv_pec_instance_init 2 1) 0x78).1 = 0) ∧
    ((pnv_pec_nest_xscom_read (pnv_pec_instance_init 5 0) 0x78).1 = 0) ∧
    ((pnv_pec_pci_xscom_read (pnv_pec_instance_init 5 0) 0x78).1 = 0) ∧
    ((pnv_pec_nest_xscom_read (pnv_pec_instance_init 2 1) 0x78).2 =
      pnv_pec_instance_init 2 1) ∧
    ((pnv_pec_pci_xscom_read (pnv_pec_instance_init 2 1) 0x78).2 =
      pnv_pec_instance_init 2 1) :=
  c6_read_total_default_zero (pnv_pec_instance_init 2 1) 0x78 5 0
    (by decide)

/-- C3 counterexample: the drop-priority-control register
(`PEC_NEST_DROP_PRIO_CTRL`, index 1) is outside the spec's enumerated
nest whitelist, yet the source stores a write to it (no diagnostic,
value read back), refuting the claim that every index outside the
spec's sets is rejected with a diagnostic. -/
theorem c3_drop_prio_counterexample :
    PEC_NEST_DROP_PRIO_CTRL ∉ spec_nest_whitelist ∧
    (pnv_pec_nest_xscom_write (pnv_pec_instance_init 0 0)
      (8 * PEC_NEST_DROP_PRIO_CTRL) 0x1234).2 = [] ∧
    (pnv_pec_nest_xscom_read
      ((pnv_pec_nest_xscom_write (pnv_pec_instance_init 0 0)
        (8 * PEC_NEST_DROP_PRIO_CTRL) 0x1234).1)
      (8 * PEC_NEST_DROP_PRIO_CTRL)).1 = 0x1234 := by decide

/-- C3 amended: the nest bank's write whitelist is exactly the spec's
enumerated set plus the drop-priority-control register, and the pci
bank's whitelist is exactly hardware-config and read-stack-override;
a write to an index inside these sets is stored (no diagnostic, value
read back) and a write to any index outside is rejected unchanged with
one diagnostic. -/
theorem c3_amended_whitelists (pec : PecState) (r v : Nat)
    (hwf : pec.wf) (hr : r < 2 ^ 32) :
    (∀ x, x ∈ pnv_pec_nest_write_cases ↔
      (x ∈ spec_nest_whitelist ∨ x = PEC_NEST_DROP_PRIO_CTRL)) ∧
    (pnv_pec_pci_write_cases = spec_pci_whitelist) ∧
    (r ∈ pnv_pec_nest_write_cases →
      (pnv_pec_nest_xscom_write pec (8 * r) v).2 = [] ∧
      (pnv_pec_nest_xscom_read
        ((pnv_pec_nest_xscom_write pec (8 * r) v).1) (8 * r)).1 = v) ∧
    (r ∉ pnv_pec_nest_write_cases →
      pnv_pec_nest_xscom_write pec (8 * r) v =
        (pec, [⟨"pnv_pec_nest_xscom_write", pec.chip_id, pec.index,
                8 * r, v⟩])) ∧
    (r ∈ pnv_pec_pci_write_cases →
      (pnv_pec_pci_xscom_write pec (8 * r) v).2 = [] ∧
      (pnv_pec_pci_xscom_read
        ((pnv_pec_pci_xscom_write pec (8 * r) v).1) (8 * r)).1 = v) ∧
    (r ∉ pnv_pec_pci_write_cases →
      pnv_pec_pci_xscom_write pec (8 * r) v =
        (pec, [⟨"pnv_pec_pci_xscom_write", pec.chip_id, pec.index,
                8 * r, v⟩])) := by
  have hd : decode_reg (8 * r) = r := decode_reg_8 r hr
  refine ⟨?_, rfl, ?_, ?_, ?_, ?_⟩
  · intro x
    simp [pnv_pec_nest_write_cases, spec_nest_whitelist,
          PEC_NEST_PBCQ_HW_CONFIG, PEC_NEST_DROP_PRIO_CTRL,
          PEC_NEST_PBCQ_ERR_INJECT, PEC_NEST_PCI_NEST_CLK_TRACE_CTL,
          PEC_NEST_PBCQ_PMON_CTRL, PEC_NEST_PBCQ_PBUS_ADDR_EXT,
          PEC_NEST_PBCQ_PRED_VEC_TIMEOUT, PEC_NEST_CAPP_CTRL,
          PEC_NEST_PBCQ_READ_STK_OVR, PEC_NEST_PBCQ_WRITE_STK_OVR,
          PEC_NEST_PBCQ_STORE_STK_OVR, PEC_NEST_PBCQ_RETRY_BKOFF_CTRL]
    tauto
  · intro hmem
    have hlt : r < PHB4_PEC_NEST_REGS_COUNT := mem_nest_cases_lt r hmem
    rw [nest_write_of_mem pec _ v (by rw [hd]; exact hmem)]
    refine ⟨rfl, ?_⟩
    simp only [pnv_pec_nest_xscom_read, hd]
    exact getD_set_self _ _ _ (by rw [hwf.1]; exact hlt)
  · intro hmem
    exact nest_write_of_not_mem pec _ v (by rw [hd]; exact hmem)
  · intro hmem
    have hlt : r < PHB4_PEC_PCI_REGS_COUNT := mem_pci_cases_lt r hmem
    rw [pci_write_of_mem pec _ v (by rw [hd]; exact hmem)]
    refine ⟨rfl, ?_⟩
    simp only [pnv_pec_pci_xscom_read, hd]
    exact getD_set_self _ _ _ (by rw [hwf.2]; exact hlt)
  · intro hmem
    exact pci_write_of_not_mem pec _ v (by rw [hd]; exact hmem)

/-- C3 amended witness: instantiated on a fresh controller at register
index 1 (drop-priority-control) with value 5. -/
theorem c3_amended_witness :
    ((∀ x, x ∈ pnv_pec_nest_write_cases ↔
      (x ∈ spec_nest_whitelist ∨ x = PEC_NEST_DROP_PRIO_CTRL)) ∧
    (pnv_pec_pci_write_cases = spec_pci_whitelist) ∧
    (1 ∈ pnv_pec_nest_write_cases →
      (pnv_pec_nest_xscom_write (pnv_pec_instance_init 0 0) (8 * 1)
        5).2 = [] ∧
      (pnv_pec_nest_xscom_read
        ((pnv_pec_nest_xscom_write (pnv_pec_instance_init 0 0) (8 * 1)
          5).1) (8 * 1)).1 = 5) ∧
    (1 ∉ pnv_pec_nest_write_cases →
      pnv_pec_nest_xscom_write (pnv_pec_instance_init 0 0) (8 * 1) 5 =
        (pnv_pec_instance_init 0 0,
         [⟨"pnv_pec_nest_xscom_write", 0, 0, 8 * 1, 5⟩])) ∧
    (1 ∈ pnv_pec_pci_write_cases →
      (pnv_pec_pci_xscom_write (pnv_pec_instance_init 0 0) (8 * 1)
        5).2 = [] ∧
      (pnv_pec_pci_xscom_read
        ((pnv_pec_pci_xscom_write (pnv_pec_instance_init 0 0) (8 * 1)
          5).1) (8 * 1)).1 = 5) ∧
    (1 ∉ pnv_pec_pci_write_cases →
      pnv_pec_pci_xscom_write (pnv_pec_instance_init 0 0) (8 * 1) 5 =
        (pnv_pec_instance_init 0 0,
         [⟨"pnv_pec_pci_xscom_write", 0, 0, 8 * 1, 5⟩]))) :=
  c3_amended_whitelists (pnv_pec_instance_init 0 0) 1 5 (by decide)
    (by norm_num)

theorem nest_write_fields (pec : PecState) (addr v : Nat) :
    ((pnv_pec_nest_xscom_write pec addr v).1).chip_id = pec.chip_id ∧
    ((pnv_pec_nest_xscom_write pec addr v).1).index = pec.index ∧
    ((pnv_pec_nest_xscom_write pec addr v).1).pci_regs = pec.pci_regs ∧
    ((pnv_pec_nest_xscom_write pec addr v).1).num_stacks =
      pec.num_stacks ∧
    ((pnv_pec_nest_xscom_write pec addr v).1).stacks_ = pec.stacks_ ∧
    ((pnv_pec_nest_xscom_write pec addr v).1).nest_region_init =
      pec.nest_region_init ∧
    ((pnv_pec_nest_xscom_write pec addr v).1).pci_region_init =
      pec.pci_region_init := by
  by_cases h : decode_reg addr ∈ pnv_pec_nest_write_cases
  · rw [nest_write_of_mem pec addr v h]
    exact ⟨rfl, rfl, rfl, rfl, rfl, rfl, rfl⟩
  · rw [nest_write_of_not_mem pec addr v h]
    exact ⟨rfl, rfl, rfl, rfl, rfl, rfl, rfl⟩

theorem pci_write_fields (pec : PecState) (addr v : Nat) :
    ((pnv_pec_pci_xscom_write pec addr v).1).chip_id = pec.chip_id ∧
    ((pnv_pec_pci_xscom_write pec addr v).1).index = pec.index ∧
    ((pnv_pec_pci_xscom_write pec addr v).1).nest_regs =
      pec.nest_regs ∧
    ((pnv_pec_pci_xscom_write pec addr v).1).num_stacks =
      pec.num_stacks ∧
    ((pnv_pec_pci_xscom_write pec addr v).1).stacks_ = pec.stacks_ ∧
    ((pnv_pec_pci_xscom_write pec addr v).1).nest_region_init =
      pec.nest_region_init ∧
    ((pnv_pec_pci_xscom_write pec addr v).1).pci_region_init =
      pec.pci_region_init := by
  by_cases h : decode_reg addr ∈ pnv_pec_pci_write_cases
  · rw [pci_write_of_mem pec addr v h]
    exact ⟨rfl, rfl, rfl, rfl, rfl, rfl, rfl⟩
  · rw [pci_write_of_not_mem pec addr v h]
    exact ⟨rfl, rfl, rfl, rfl, rfl, rfl, rfl⟩

/-- C4: for a valid controller index, realization succeeds and sets
`num_stacks` to the fixed table value (index 0 gives 1, index 1 gives
2, index 2 gives 3), and `num_stacks` is unchanged by every subsequent
register-bank operation. -/
theorem c4_num_stacks_table (pec : PecState) (d : Bool)
    (h : pec.index < chip_num_pecs) :
    ((pnv_pec_realize d pec).1 = none) ∧
    ((pnv_pec_realize d pec).2.num_stacks =
      [1, 2, 3].getD pec.index 0) ∧
    ((pnv_pec_realize d pec).2.num_stacks =
      pnv_pec_num_stacks.getD pec.index 0) ∧
    (∀ addr v,
      ((pnv_pec_nest_xscom_write (pnv_pec_realize d pec).2 addr
        v).1).num_stacks = (pnv_pec_realize d pec).2.num_stacks ∧
      ((pnv_pec_pci_xscom_write (pnv_pec_realize d pec).2 addr
        v).1).num_stacks = (pnv_pec_realize d pec).2.num_stacks ∧
      ((pnv_pec_nest_xscom_read (pnv_pec_realize d pec).2
        addr).2).num_stacks = (pnv_pec_realize d pec).2.num_stacks ∧
      ((pnv_pec_pci_xscom_read (pnv_pec_realize d pec).2
        addr).2).num_stacks = (pnv_pec_realize d pec).2.num_stacks) := by
  rw [realize_ok pec d h]
  refine ⟨rfl, rfl, rfl, ?_⟩
  intro addr v
  exact ⟨(nest_write_fields _ addr v).2.2.2.1,
         (pci_write_fields _ addr v).2.2.2.1, rfl, rfl⟩

/-- C4 witness: controller index 2 on a fresh state realizes with 3
stacks, stable across register operations at offset 0. -/
theorem c4_num_stacks_witness :
    ((pnv_pec_realize true (pnv_pec_instance_init 0 2)).1 = none) ∧
    ((pnv_pec_realize true (pnv_pec_instance_init 0 2)).2.num_stacks =
      [1, 2, 3].getD (pnv_pec_instance_init 0 2).index 0) ∧
    ((pnv_pec_realize true (pnv_pec_instance_init 0 2)).2.num_stacks =
      pnv_pec_num_stacks.getD (pnv_pec_instance_init 0 2).index 0) ∧
    (∀ addr v,
      ((pnv_pec_nest_xscom_write
        (pnv_pec_realize true (pnv_pec_instance_init 0 2)).2 addr
        v).1).num_stacks =
        (pnv_pec_realize true (pnv_pec_instance_init 0 2)).2.num_stacks ∧
      ((pnv_pec_pci_xscom_write
        (pnv_pec_realize true (pnv_pec_instance_init 0 2)).2 addr
        v).1).num_stacks =
        (pnv_pec_realize true (pnv_pec_instance_init 0 2)).2.num_stacks ∧
      ((pnv_pec_nest_xscom_read
        (pnv_pec_realize true (pnv_pec_instance_init 0 2)).2
        addr).2).num_stacks =
        (pnv_pec_realize true (pnv_pec_instance_init 0 2)).2.num_stacks ∧
      ((pnv_pec_pci_xscom_read
        (pnv_pec_realize true (pnv_pec_instance_init 0 2)).2
        addr).2).num_stacks =
        (pnv_pec_realize true (pnv_pec_instance_init 0 2)).2.num_stacks) :=
  c4_num_stacks_table (pnv_pec_instance_init 0 2) true (by decide)

/-- C7: the nest base is `NEST_ORIGIN + 0x400 * index` and the pci
base is `PCI_ORIGIN + 0x1000000 * index`, and for distinct sibling
controllers the nest windows (size `PNV9_XSCOM_PEC_NEST_SIZE`) and the
pci windows (size `PNV9_XSCOM_PEC_PCI_SIZE`) do not intersect. -/
theorem c7_bases_and_non_overlap (i j : Nat) (hi : i < chip_num_pecs)
    (hj : j < chip_num_pecs) (hij : i ≠ j) :
    (pnv_pec_xscom_nest_base i =
      PNV9_XSCOM_PEC_NEST_BASE + 0x400 * i) ∧
    (pnv_pec_xscom_pci_base i =
      PNV9_XSCOM_PEC_PCI_BASE + 0x1000000 * i) ∧
    (∀ a, pnv_pec_xscom_nest_base i ≤ a →
      a < pnv_pec_xscom_nest_base i + PNV9_XSCOM_PEC_NEST_SIZE →
      ¬(pnv_pec_xscom_nest_base j ≤ a ∧
        a < pnv_pec_xscom_nest_base j + PNV9_XSCOM_PEC_NEST_SIZE)) ∧
    (∀ a, pnv_pec_xscom_pci_base i ≤ a →
      a < pnv_pec_xscom_pci_base i + PNV9_XSCOM_PEC_PCI_SIZE →
      ¬(pnv_pec_xscom_pci_base j ≤ a ∧
        a < pnv_pec_xscom_pci_base j + PNV9_XSCOM_PEC_PCI_SIZE)) := by
  have hn3 : chip_num_pecs = 3 := rfl
  rw [hn3] at hi hj
  have hbn : ∀ k, k < 3 → pnv_pec_xscom_nest_base k =
      PNV9_XSCOM_PEC_NEST_BASE + 0x400 * k := by
    intro k hk
    unfold pnv_pec_xscom_nest_base PNV9_XSCOM_PEC_NEST_BASE
    rw [Nat.mod_eq_of_lt (by omega)]
  have hbp : ∀ k, k < 3 → pnv_pec_xscom_pci_base k =
      PNV9_XSCOM_PEC_PCI_BASE + 0x1000000 * k := by
    intro k hk
    unfold pnv_pec_xscom_pci_base PNV9_XSCOM_PEC_PCI_BASE
    rw [Nat.mod_eq_of_lt (by omega)]
  refine ⟨hbn i hi, hbp i hi, ?_, ?_⟩
  · intro a h1 h2 hcl
    rw [hbn i hi] at h1 h2
    rw [hbn j hj] at hcl
    unfold PNV9_XSCOM_PEC_NEST_BASE PNV9_XSCOM_PEC_NEST_SIZE at *
    omega
  · intro a h1 h2 hcl
    rw [hbp i hi] at h1 h2
    rw [hbp j hj] at hcl
    unfold PNV9_XSCOM_PEC_PCI_BASE PNV9_XSCOM_PEC_PCI_SIZE at *
    omega

/-- C7 witness: controllers 0 and 1 have the derived bases and their
windows are disjoint. -/
theorem c7_non_overlap_witness :
    ((pnv_pec_xscom_nest_base 0 =
      PNV9_XSCOM_PEC_NEST_BASE + 0x400 * 0) ∧
    (pnv_pec_xscom_pci_base 0 =
      PNV9_XSCOM_PEC_PCI_BASE + 0x1000000 * 0) ∧
    (∀ a, pnv_pec_xscom_nest_base 0 ≤ a →
      a < pnv_pec_xscom_nest_base 0 + PNV9_XSCOM_PEC_NEST_SIZE →
      ¬(pnv_pec_xscom_nest_base 1 ≤ a ∧
        a < pnv_pec_xscom_nest_base 1 + PNV9_XSCOM_PEC_NEST_SIZE)) ∧
    (∀ a, pnv_pec_xscom_pci_base 0 ≤ a →
      a < pnv_pec_xscom_pci_base 0 + PNV9_XSCOM_PEC_PCI_SIZE →
      ¬(pnv_pec_xscom_pci_base 1 ≤ a ∧
        a < pnv_pec_xscom_pci_base 1 + PNV9_XSCOM_PEC_PCI_SIZE))) :=
  c7_bases_and_non_overlap 0 1 (by decide) (by decide) (by decide)

/-- C10: a whitelisted write to one bank changes only that single
register of that bank (the other bank, every other register of the
same bank, and all other controller state are unchanged), and a read
of either bank changes no state at all. -/
theorem c10_write_frame (pec : PecState) (r v addr : Nat) :
    (r ∈ pnv_pec_nest_write_cases →
      ((pnv_pec_nest_xscom_write pec (8 * r) v).1).chip_id =
        pec.chip_id ∧
      ((pnv_pec_nest_xscom_write pec (8 * r) v).1).index = pec.index ∧
      ((pnv_pec_nest_xscom_write pec (8 * r) v).1).pci_regs =
        pec.pci_regs ∧
      ((pnv_pec_nest_xscom_write pec (8 * r) v).1).num_stacks =
        pec.num_stacks ∧
      ((pnv_pec_nest_xscom_write pec (8 * r) v).1).stacks_ =
        pec.stacks_ ∧
      (∀ r2, r2 ≠ r →
        ((pnv_pec_nest_xscom_write pec (8 * r) v).1).nest_regs.getD r2 0
          = pec.nest_regs.getD r2 0)) ∧
    (r ∈ pnv_pec_pci_write_cases →
      ((pnv_pec_pci_xscom_write pec (8 * r) v).1).chip_id =
        pec.chip_id ∧
      ((pnv_pec_pci_xscom_write pec (8 * r) v).1).index = pec.index ∧
      ((pnv_pec_pci_xscom_write pec (8 * r) v).1).nest_regs =
        pec.nest_regs ∧
      ((pnv_pec_pci_xscom_write pec (8 * r) v).1).num_stacks =
        pec.num_stacks ∧
      ((pnv_pec_pci_xscom_write pec (8 * r) v).1).stacks_ =
        pec.stacks_ ∧
      (∀ r2, r2 ≠ r →
        ((pnv_pec_pci_xscom_write pec (8 * r) v).1).pci_regs.getD r2 0
          = pec.pci_regs.getD r2 0)) ∧
    ((pnv_pec_nest_xscom_read pec addr).2 = pec) ∧
    ((pnv_pec_pci_xscom_read pec addr).2 = pec) := by
  refine ⟨?_, ?_, rfl, rfl⟩
  · intro hmem
    have hlt : r < PHB4_PEC_NEST_REGS_COUNT := mem_nest_cases_lt r hmem
    have hd : decode_reg (8 * r) = r := decode_reg_8 r
      (by unfold PHB4_PEC_NEST_REGS_COUNT at hlt; omega)
    rw [nest_write_of_mem pec _ v (by rw [hd]; exact hmem)]
    refine ⟨rfl, rfl, rfl, rfl, rfl, ?_⟩
    intro r2 hne
    rw [hd]
    exact getD_set_ne _ _ _ _ (fun hl => hne hl.symm)
  · intro hmem
    have hlt : r < PHB4_PEC_PCI_REGS_COUNT := mem_pci_cases_lt r hmem
    have hd : decode_reg (8 * r) = r := decode_reg_8 r
      (by unfold PHB4_PEC_PCI_REGS_COUNT at hlt; omega)
    rw [pci_write_of_mem pec _ v (by rw [hd]; exact hmem)]
    refine ⟨rfl, rfl, rfl, rfl, rfl, ?_⟩
    intro r2 hne
    rw [hd]
    exact getD_set_ne _ _ _ _ (fun hl => hne hl.symm)

/-- C10 witness: writing register 0 of each bank on a fresh controller
frames every other component; reads at offset 8 change nothing. -/
theorem c10_write_frame_witness :
    ((0 ∈ pnv_pec_nest_write_cases →
      ((pnv_pec_nest_xscom_write (pnv_pec_instance_init 4 1) (8 * 0)
        9).1).chip_id = (pnv_pec_instance_init 4 1).chip_id ∧
      ((pnv_pec_nest_xscom_write (pnv_pec_instance_init 4 1) (8 * 0)
        9).1).index = (pnv_pec_instance_init 4 1).index ∧
      ((pnv_pec_nest_xscom_write (pnv_pec_instance_init 4 1) (8 * 0)
        9).1).pci_regs = (pnv_pec_instance_init 4 1).pci_regs ∧
      ((pnv_pec_nest_xscom_write (pnv_pec_instance_init 4 1) (8 * 0)
        9).1).num_stacks = (pnv_pec_instance_init 4 1).num_stacks ∧
      ((pnv_pec_nest_xscom_write (pnv_pec_instance_init 4 1) (8 * 0)
        9).1).stacks_ = (pnv_pec_instance_init 4 1).stacks_ ∧
      (∀ r2, r2 ≠ 0 →
        ((pnv_pec_nest_xscom_write (pnv_pec_instance_init 4 1) (8 * 0)
          9).1).nest_regs.getD r2 0 =
          (pnv_pec_instance_init 4 1).nest_regs.getD r2 0)) ∧
    (0 ∈ pnv_pec_pci_write_cases →
      ((pnv_pec_pci_xscom_write (pnv_pec_instance_init 4 1) (8 * 0)
        9).1).chip_id = (pnv_pec_instance_init 4 1).chip_id ∧
      ((pnv_pec_pci_xscom_write (pnv_pec_instance_init 4 1) (8 * 0)
        9).1).index = (pnv_pec_instance_init 4 1).index ∧
      ((pnv_pec_pci_xscom_write (pnv_pec_instance_init 4 1) (8 * 0)
        9).1).nest_regs = (pnv_pec_instance_init 4 1).nest_regs ∧
      ((pnv_pec_pci_xscom_write (pnv_pec_instance_init 4 1) (8 * 0)
        9).1).num_stacks = (pnv_pec_instance_init 4 1).num_stacks ∧
      ((pnv_pec_pci_xscom_write (pnv_pec_instance_init 4 1) (8 * 0)
        9).1).stacks_ = (pnv_pec_instance_init 4 1).stacks_ ∧
      (∀ r2, r2 ≠ 0 →
        ((pnv_pec_pci_xscom_write (pnv_pec_instance_init 4 1) (8 * 0)
          9).1).pci_regs.getD r2 0 =
          (pnv_pec_instance_init 4 1).pci_regs.getD r2 0)) ∧
    ((pnv_pec_nest_xscom_read (pnv_pec_instance_init 4 1) 8).2 =
      pnv_pec_instance_init 4 1) ∧
    ((pnv_pec_pci_xscom_read (pnv_pec_instance_init 4 1) 8).2 =
      pnv_pec_instance_init 4 1)) :=
  c10_write_frame (pnv_pec_instance_init 4 1) 0 9 8

/-- C8: the topology export produces one controller node named from
the nest base address, whose `reg` is the four big-endian 32-bit words
nest base, nest size, pci base, pci size, carrying the controller's
index and the family compatible string, with exactly `num_stacks`
stack children in ascending order, each carrying its stack number as
`reg`, its derived PHB index, and the stack compatible string. -/
theorem c8_dt_export_shape (pec : PecState) :
    ((pnv_pec_dt_xscom pec).name =
      "pbcq@" ++ hexStr (pnv_pec_xscom_nest_base pec.index)) ∧
    ((pnv_pec_dt_xscom pec).props.lookup "reg" =
      some (FdtPropVal.bytes
        (cpu_to_be32 (pnv_pec_xscom_nest_base pec.index) ++
         cpu_to_be32 PNV9_XSCOM_PEC_NEST_SIZE ++
         cpu_to_be32 (pnv_pec_xscom_pci_base pec.index) ++
         cpu_to_be32 PNV9_XSCOM_PEC_PCI_SIZE))) ∧
    ((pnv_pec_dt_xscom pec).props.lookup "ibm,pec-index" =
      some (FdtPropVal.bytes (cpu_to_be32 pec.index))) ∧
    ((pnv_pec_dt_xscom pec).props.lookup "compatible" =
      some (FdtPropVal.strz ("ibm,power9-pbcq"))) ∧
    ((pnv_pec_dt_xscom pec).children.length = pec.num_stacks) ∧
    (∀ k, k < pec.num_stacks →
      ((pnv_pec_dt_xscom pec).children.getD k ⟨"", [], []⟩).name =
        "stack@" ++ hexStr k ∧
      ((pnv_pec_dt_xscom pec).children.getD k
        ⟨"", [], []⟩).props.lookup "reg" =
        some (FdtPropVal.bytes (cpu_to_be32 k)) ∧
      ((pnv_pec_dt_xscom pec).children.getD k
        ⟨"", [], []⟩).props.lookup "ibm,phb-index" =
        some (FdtPropVal.bytes
          (cpu_to_be32 (pnv_phb4_pec_get_phb_id pec.index k))) ∧
      ((pnv_pec_dt_xscom pec).children.getD k
        ⟨"", [], []⟩).props.lookup "compatible" =
        some (FdtPropVal.strz ("ibm,power9-phb-stack"))) := by
  refine ⟨rfl, rfl, rfl, rfl, by simp [pnv_pec_dt_xscom], ?_⟩
  intro k hk
  have hc : (pnv_pec_dt_xscom pec).children.getD k ⟨"", [], []⟩ =
      { name := "stack@" ++ hexStr k
        props :=
          [("compatible", FdtPropVal.strz ("ibm,power9-phb-stack")),
           ("reg", FdtPropVal.bytes (cpu_to_be32 k)),
           ("ibm,phb-index",
            FdtPropVal.bytes
              (cpu_to_be32 (pnv_phb4_pec_get_phb_id pec.index k)))]
        children := [] } := by
    show ((List.range pec.num_stacks).map _).getD k _ = _
    rw [getD_map_range _ _ _ _ hk]
  rw [hc]
  exact ⟨rfl, rfl, rfl, rfl⟩

/-- C8 witness: the realized controller 2 exports three stack children
with the expected names and properties; instantiated at child 1. -/
theorem c8_dt_export_witness :
    ((pnv_pec_dt_xscom
      (pnv_pec_realize true (pnv_pec_instance_init 0 2)).2).children.length
      = (pnv_pec_realize true (pnv_pec_instance_init 0 2)).2.num_stacks) ∧
    (1 < (pnv_pec_realize true (pnv_pec_instance_init 0 2)).2.num_stacks →
      ((pnv_pec_dt_xscom
        (pnv_pec_realize true
          (pnv_pec_instance_init 0 2)).2).children.getD 1
        ⟨"", [], []⟩).name = "stack@" ++ hexStr 1) := by
  have h := c8_dt_export_shape
    (pnv_pec_realize true (pnv_pec_instance_init 0 2)).2
  exact ⟨h.2.2.2.2.1, fun hk => (h.2.2.2.2.2 1 hk).1⟩

/-- C9: after realization with default devices enabled, every live
stack's default PHB child is configured with the same PHB index that
the topology export writes as `ibm,phb-index` for that stack: both are
`pnv_phb4_pec_get_phb_id` of the controller's index and the stack
number. -/
theorem c9_phb_index_agreement (pec : PecState) (k : Nat)
    (h : pec.index < chip_num_pecs)
    (hk : k < (pnv_pec_realize true pec).2.num_stacks) :
    (((pnv_pec_realize true pec).2.stacks_.getD k
      ⟨0, false, 0, 0, 0⟩).phb_index =
      pnv_phb4_pec_get_phb_id pec.index k) ∧
    (((pnv_pec_realize true pec).2.stacks_.getD k
      ⟨0, false, 0, 0, 0⟩).phb_realized = true) ∧
    (((pnv_pec_dt_xscom (pnv_pec_realize true pec).2).children.getD k
      ⟨"", [], []⟩).props.lookup "ibm,phb-index" =
      some (FdtPropVal.bytes
        (cpu_to_be32 (pnv_phb4_pec_get_phb_id pec.index k)))) := by
  rw [realize_ok pec true h] at hk ⊢
  have hk2 : k < pnv_pec_num_stacks.getD pec.index 0 := hk
  refine ⟨?_, ?_, ?_⟩
  · dsimp only
    rw [getD_map_range _ _ _ _ hk2]
    simp [pnv_pec_stk_realize, pnv_pec_stk_default_phb_realize]
  · dsimp only
    rw [getD_map_range _ _ _ _ hk2]
    simp [pnv_pec_stk_realize, pnv_pec_stk_default_phb_realize]
  · dsimp only [pnv_pec_dt_xscom]
    rw [getD_map_range _ _ _ _ hk2]
    rfl

/-- C9 witness: controller index 1, stack 1: the realized PHB child's
index and the exported `ibm,phb-index` both equal 2. -/
theorem c9_phb_index_witness :
    ((((pnv_pec_realize true (pnv_pec_instance_init 0 1)).2.stacks_.getD 1
      ⟨0, false, 0, 0, 0⟩).phb_index =
      pnv_phb4_pec_get_phb_id (pnv_pec_instance_init 0 1).index 1) ∧
    (((pnv_pec_realize true (pnv_pec_instance_init 0 1)).2.stacks_.getD 1
      ⟨0, false, 0, 0, 0⟩).phb_realized = true) ∧
    (((pnv_pec_dt_xscom
      (pnv_pec_realize true (pnv_pec_instance_init 0 1)).2).children.getD 1
      ⟨"", [], []⟩).props.lookup "ibm,phb-index" =
      some (FdtPropVal.bytes
        (cpu_to_be32
          (pnv_phb4_pec_get_phb_id (pnv_pec_instance_init 0 1).index
            1))))) :=
  c9_phb_index_agreement (pnv_pec_instance_init 0 1) 1 (by decide)
    (by decide)

end PnvPhb4Pec
